import Mathlib

/-!
Verification of the Trend Confirmation & Level Engine (src/main.py).

The Python source is shallowly embedded: pandas columns become `List ℚ`,
the enriched dataframe becomes the `Frame` record, `None` becomes `Option`,
and every function below mirrors the source function of the same name.
Prices and indicator values are modelled as exact rationals.
-/

namespace TrendBot

/-- Direction values used by the source ("UP" / "DOWN" / "NEUTRAL"). -/
inductive TrendDir
  | UP
  | DOWN
  | NEUTRAL
  deriving DecidableEq, Repr

/-- Swing-structure labels ("HH" / "LH" / "HL" / "LL"). -/
inductive SwingLabel
  | HH
  | LH
  | HL
  | LL
  deriving DecidableEq, Repr

/-- One parsed OHLCV row (get_candles builds these from raw records). -/
structure Candle where
  ts : Int
  op : ℚ
  high : ℚ
  low : ℚ
  close : ℚ
  volume : ℚ
  deriving DecidableEq, Repr

/-- The dataframe after add_indicators / detect_swings: one list per column. -/
structure Frame where
  highs : List ℚ
  lows : List ℚ
  closes : List ℚ
  volumes : List ℚ
  emaFast : List ℚ
  emaSlow : List ℚ
  macd : List ℚ
  macdSignal : List ℚ
  volSma : List (Option ℚ)
  vRat : List (Option ℚ)
  swingHigh : List Bool
  swingLow : List Bool
  deriving DecidableEq, Repr

/-- Column extraction from a candle list (the DataFrame constructor). -/
def toFrame (cs : List Candle) : Frame :=
  { highs := cs.map (fun c => c.high)
    lows := cs.map (fun c => c.low)
    closes := cs.map (fun c => c.close)
    volumes := cs.map (fun c => c.volume)
    emaFast := []
    emaSlow := []
    macd := []
    macdSignal := []
    volSma := []
    vRat := []
    swingHigh := []
    swingLow := [] }

/-- Exponential smoothing continued from a seed value (pandas ewm, adjust=False). -/
def ewmFrom (a : ℚ) : ℚ → List ℚ → List ℚ
  | _, [] => []
  | prev, x :: xs =>
    let y := a * x + (1 - a) * prev
    y :: ewmFrom a y xs

/-- Exponential moving average with smoothing 2/(span+1), seeded by the first value. -/
def ewm (span : ℕ) : List ℚ → List ℚ
  | [] => []
  | x :: xs => x :: ewmFrom (2 / ((span : ℚ) + 1)) x xs

/-- Pointwise difference of two columns. -/
def zipSub (xs ys : List ℚ) : List ℚ := List.zipWith (fun a b => a - b) xs ys

/-- Rolling mean over a window of w values; undefined for the first w-1 indices. -/
def rollingMean (w : ℕ) (xs : List ℚ) : List (Option ℚ) :=
  (List.range xs.length).map (fun i =>
    if w ≤ i + 1 then some ((((xs.drop (i + 1 - w)).take w).sum) / (w : ℚ)) else none)

/-- Mirrors add_indicators: EMA pair, MACD pair, volume SMA and ratio. -/
def add_indicators (f : Frame) : Frame :=
  let m := zipSub (ewm 12 f.closes) (ewm 26 f.closes)
  let sma := rollingMean 20 f.volumes
  { f with
    emaFast := ewm 14 f.closes
    emaSlow := ewm 28 f.closes
    macd := m
    macdSignal := ewm 9 m
    volSma := sma
    vRat := List.zipWith (fun v s => Option.map (fun q => v / q) s) f.volumes sma }

/-- Swing-high test for index i: the high strictly exceeds the highs of the
look neighbours on each side; boundary indices are never swings. -/
def isSwingHigh (highs : List ℚ) (look i : ℕ) : Bool :=
  decide (look ≤ i) && decide (i + look < highs.length) &&
    (List.range look).all (fun k =>
      decide (highs.getD (i - (k + 1)) 0 < highs.getD i 0) &&
      decide (highs.getD (i + (k + 1)) 0 < highs.getD i 0))

/-- Swing-low test for index i, symmetric to `isSwingHigh` on lows. -/
def isSwingLow (lows : List ℚ) (look i : ℕ) : Bool :=
  decide (look ≤ i) && decide (i + look < lows.length) &&
    (List.range look).all (fun k =>
      decide (lows.getD i 0 < lows.getD (i - (k + 1)) 0) &&
      decide (lows.getD i 0 < lows.getD (i + (k + 1)) 0))

/-- Mirrors detect_swings: fills the swing_high / swing_low flag columns. -/
def detect_swings (f : Frame) (look : ℕ := 2) : Frame :=
  { f with
    swingHigh := (List.range f.highs.length).map (fun i => isSwingHigh f.highs look i)
    swingLow := (List.range f.lows.length).map (fun i => isSwingLow f.lows look i) }

/-- Indices i ≤ idx whose swing_high flag is set (get_structure's `highs` list). -/
def swingHighIdxs (f : Frame) (idx : ℕ) : List ℕ :=
  (List.range (idx + 1)).filter (fun i => f.swingHigh.getD i false)

/-- Indices i ≤ idx whose swing_low flag is set (get_structure's `lows` list). -/
def swingLowIdxs (f : Frame) (idx : ℕ) : List ℕ :=
  (List.range (idx + 1)).filter (fun i => f.swingLow.getD i false)

/-- The last and second-to-last element of a list, if it has at least two. -/
def lastTwo (l : List ℕ) : Option (ℕ × ℕ) :=
  match l.reverse with
  | a :: b :: _ => some (a, b)
  | _ => none

/-- Output of get_structure. -/
structure Structure where
  dir : TrendDir
  high : Option SwingLabel
  low : Option SwingLabel
  hiIdx : Option ℕ
  loIdx : Option ℕ
  deriving DecidableEq, Repr

/-- Mirrors get_structure: classifies the two most recent swing highs/lows at
or before idx and derives the structural direction (the UP test runs first,
the DOWN test second and overwrites it). -/
def get_structure (f : Frame) (idx : ℕ) : Structure :=
  let hp := lastTwo (swingHighIdxs f idx)
  let lp := lastTwo (swingLowIdxs f idx)
  let htype : Option SwingLabel :=
    hp.map (fun p => if f.highs.getD p.2 0 < f.highs.getD p.1 0 then SwingLabel.HH else SwingLabel.LH)
  let ltype : Option SwingLabel :=
    lp.map (fun p => if f.lows.getD p.2 0 < f.lows.getD p.1 0 then SwingLabel.HL else SwingLabel.LL)
  let d1 : TrendDir :=
    if htype = some SwingLabel.HH ∨ ltype = some SwingLabel.HL then TrendDir.UP else TrendDir.NEUTRAL
  let d2 : TrendDir :=
    if htype = some SwingLabel.LH ∨ ltype = some SwingLabel.LL then TrendDir.DOWN else d1
  { dir := d2, high := htype, low := ltype
    hiIdx := hp.map (fun p => p.1), loIdx := lp.map (fun p => p.1) }

/-- EMA raw direction at idx: UP iff ema_fast > ema_slow. -/
def ema_dir (f : Frame) (idx : ℕ) : TrendDir :=
  if f.emaSlow.getD idx 0 < f.emaFast.getD idx 0 then TrendDir.UP else TrendDir.DOWN

/-- MACD direction at idx: UP iff macd > macd_signal. -/
def macd_dir (f : Frame) (idx : ℕ) : TrendDir :=
  if f.macdSignal.getD idx 0 < f.macd.getD idx 0 then TrendDir.UP else TrendDir.DOWN

/-- Output of trend_decision. -/
structure Decision where
  raw : TrendDir
  confirmed : Option TrendDir
  st : Structure
  deriving DecidableEq, Repr

/-- Mirrors trend_decision: structure + EMA agreement opens a 2-vote count,
MACD and the whale direction each add one, and 3 votes confirm. -/
def trend_decision (f : Frame) (idx : ℕ) (whale_dir : Option TrendDir) : Decision :=
  let st := get_structure f idx
  let conf : Option TrendDir :=
    if st.dir ≠ TrendDir.NEUTRAL ∧ st.dir = ema_dir f idx then
      let m : ℕ :=
        2 + (if macd_dir f idx = st.dir then 1 else 0) +
          (if whale_dir = some st.dir then 1 else 0)
      if 3 ≤ m then some st.dir else none
    else none
  { raw := ema_dir f idx, confirmed := conf, st := st }

/-- Mirrors the whale gating in analyze: the flow direction is used only when
the absolute net notional exceeds 80,000 and a dominant side exists. -/
def whale_gate (net : ℚ) (side : Option TrendDir) : Option TrendDir :=
  if 80000 < abs net ∧ side ≠ none then side else none

/-- Maximum of a list (pandas Series.max on a nonempty column). -/
def listMax : List ℚ → ℚ
  | [] => 0
  | x :: xs => xs.foldl max x

/-- Minimum of a list (pandas Series.min on a nonempty column). -/
def listMin : List ℚ → ℚ
  | [] => 0
  | x :: xs => xs.foldl min x

/-- The last 20 entries of a column (pandas Series.tail(20)). -/
def tail20 (l : List ℚ) : List ℚ := l.drop (l.length - 20)

/-- The dictionary analyze returns for one instrument. -/
structure AnalysisResult where
  inst : String
  df4 : Frame
  day : TrendDir
  nowD : Decision
  prevD : Decision
  close : ℚ
  swing : ℚ
  hi : Option ℕ
  lo : Option ℕ
  net : ℚ
  whaleDir : Option TrendDir
  deriving DecidableEq, Repr

/-- Mirrors analyze, with the two candle fetches and the trade tape abstracted
into inputs: c4 / c1 are the parsed 4H / 1D series, net and side the trade
flow's net notional and dominant side. -/
def analyze (c4 c1 : List Candle) (net : ℚ) (side : Option TrendDir)
    (inst : String) : AnalysisResult :=
  let df4 := detect_swings (add_indicators (toFrame c4))
  let df1 := detect_swings (add_indicators (toFrame c1))
  let w := whale_gate net side
  let nowD := trend_decision df4 (df4.closes.length - 1) w
  let prevD := trend_decision df4 (df4.closes.length - 2) none
  let s1 := get_structure df1 (df1.closes.length - 1)
  let e1 : TrendDir :=
    if df1.emaSlow.getD (df1.emaSlow.length - 1) 0 < df1.emaFast.getD (df1.emaFast.length - 1) 0
    then TrendDir.UP else TrendDir.DOWN
  let day : TrendDir :=
    if s1.dir = TrendDir.UP ∧ e1 = TrendDir.UP then TrendDir.UP
    else if s1.dir = TrendDir.DOWN ∧ e1 = TrendDir.DOWN then TrendDir.DOWN
    else TrendDir.NEUTRAL
  let close := df4.closes.getD (df4.closes.length - 1) 0
  let swing : ℚ :=
    match nowD.st.hiIdx, nowD.st.loIdx with
    | some hi, some lo => abs (df4.highs.getD hi 0 - df4.lows.getD lo 0)
    | _, _ => listMax (tail20 df4.highs) - listMin (tail20 df4.lows)
  { inst := inst, df4 := df4, day := day, nowD := nowD, prevD := prevD
    close := close, swing := swing, hi := nowD.st.hiIdx, lo := nowD.st.loIdx
    net := net, whaleDir := w }

/-- Mirrors get_candles on an already-fetched raw list: a record that fails to
parse is none and is dropped; fewer than 5 raw records or fewer than 60 parsed
rows yield no series. The same function serves the 4H and the 1D fetch. -/
def get_candles (raw : List (Option Candle)) : Option (List Candle) :=
  if raw.length < 5 then none
  else
    let rows := raw.reverse.filterMap id
    if rows.length < 60 then none else some rows

/-- Mirrors the data-availability gates at the head of analyze: either fetch
returning no series aborts (RuntimeError) the instrument's analysis. -/
def analyzeOpt (raw4 raw1 : List (Option Candle)) (net : ℚ) (side : Option TrendDir)
    (inst : String) : Option AnalysisResult :=
  match get_candles raw4 with
  | none => none
  | some c4 =>
    match get_candles raw1 with
    | none => none
    | some c1 => some (analyze c4 c1 net side inst)

/-- Mirrors calc_levels: (sl, tp1, tp2, tp3). The UP branch anchors the stop
at the latest swing low (fallback close·0.97); every other direction value,
null included, takes the else branch. -/
def calc_levels (d : AnalysisResult) (direction : Option TrendDir) : ℚ × ℚ × ℚ × ℚ :=
  if direction = some TrendDir.UP then
    (match d.lo with
     | some lo => d.df4.lows.getD lo 0
     | none => d.close * (97 / 100),
     d.close + d.swing * (1 / 2), d.close + d.swing, d.close + d.swing * (3 / 2))
  else
    (match d.hi with
     | some hi => d.df4.highs.getD hi 0
     | none => d.close * (103 / 100),
     d.close - d.swing * (1 / 2), d.close - d.swing, d.close - d.swing * (3 / 2))

/-- Mirrors is_reentry_signal: pullback to ema_fast within the last three bars
followed by the latest bar resuming in the confirmed direction. -/
def is_reentry_signal (d : AnalysisResult) : Bool :=
  match d.nowD.confirmed with
  | none => false
  | some c =>
    let cl := d.df4.closes
    let ef := d.df4.emaFast
    let c2 := cl.getD (cl.length - 3) 0
    let c1 := cl.getD (cl.length - 2) 0
    let c0 := cl.getD (cl.length - 1) 0
    let e2 := ef.getD (ef.length - 3) 0
    let e1 := ef.getD (ef.length - 2) 0
    let e0 := ef.getD (ef.length - 1) 0
    if c = TrendDir.UP then (decide (c2 ≤ e2) || decide (c1 ≤ e1)) && decide (e0 < c0)
    else if c = TrendDir.DOWN then (decide (e2 ≤ c2) || decide (e1 ≤ c1)) && decide (c0 < e0)
    else false

/-- The instrument universe scanned each run. -/
def TRADE_SYMBOLS : List String :=
  ["BTC-USDT", "ETH-USDT", "BNB-USDT", "SOL-USDT", "XRP-USDT", "ADA-USDT", "DOGE-USDT"]

/-- The reference (major) instruments. -/
def MAJORS : List String := ["BTC-USDT", "ETH-USDT"]

/-- The non-reference instruments. -/
def ALTCOINS : List String := TRADE_SYMBOLS.filter (fun s => !(MAJORS.contains s))

/-- Mirrors the regime check in main: some analysed major is confirmed DOWN. -/
def block_alt_long (A : List AnalysisResult) : Bool :=
  MAJORS.any (fun m =>
    A.any (fun d => decide (d.inst = m) && decide (d.nowD.confirmed = some TrendDir.DOWN)))

/-- The per-instrument test of main's trend-change loop (with the regime skip). -/
def trend_fires (blockAlt : Bool) (d : AnalysisResult) : Bool :=
  decide (d.nowD.confirmed ≠ none) &&
    !(ALTCOINS.contains d.inst && blockAlt && decide (d.nowD.confirmed = some TrendDir.UP)) &&
    (decide (d.prevD.confirmed = none) || decide (d.prevD.confirmed ≠ d.nowD.confirmed))

/-- The per-instrument test of main's re-entry loop (with the regime skip). -/
def reentry_fires (blockAlt : Bool) (d : AnalysisResult) : Bool :=
  decide (d.nowD.confirmed ≠ none) &&
    !(ALTCOINS.contains d.inst && blockAlt && decide (d.nowD.confirmed = some TrendDir.UP)) &&
    is_reentry_signal d

/-- Alert kinds main can emit in one TREND-mode run. -/
inductive Tag
  | TREND
  | REENTRY
  deriving DecidableEq, Repr

/-- Mirrors main's TREND-mode dispatch for a given regime flag: when any
trend-change fires the run sends exactly those blocks and returns; only
otherwise does the re-entry scan run. -/
def alertsWith (blockAlt : Bool) (A : List AnalysisResult) : List (AnalysisResult × Tag) :=
  let tb := A.filter (trend_fires blockAlt)
  if tb.isEmpty then (A.filter (reentry_fires blockAlt)).map (fun d => (d, Tag.REENTRY))
  else tb.map (fun d => (d, Tag.TREND))

/-- The alerts one TREND-mode run emits for the analysed instruments A. -/
def runAlerts (A : List AnalysisResult) : List (AnalysisResult × Tag) :=
  alertsWith (block_alt_long A) A

/-- The full structure pipeline at one index: detect swings on the enriched
series, then classify at idx. -/
def structureAt (c : List Candle) (idx : ℕ) : Structure :=
  get_structure (detect_swings (add_indicators (toFrame c))) idx

attribute [local semireducible] Rat.add Rat.mul Rat.inv Rat.sub

/-- Shorthand candle constructor (only high/low/close drive the analysis). -/
def mkC (h l c : ℚ) : Candle := { ts := 0, op := c, high := h, low := l, close := c, volume := 1 }

/-- A 64-bar uptrend whose last swing low (index 56, low 141) sits above the
final close 139: ascending swing lows, EMA fast above slow, then a two-bar
drop below the swing low that detect_swings cannot yet flag. -/
def seriesA : List Candle :=
  [ mkC 100 95 98, mkC 101 96 99, mkC 102 97 100, mkC 103 98 101, mkC 104 99 102,
   mkC 105 100 103, mkC 106 101 104, mkC 107 102 105, mkC 108 103 106, mkC 109 104 107,
   mkC 110 105 108, mkC 111 106 109, mkC 112 107 110, mkC 113 108 111, mkC 114 109 112,
   mkC 115 110 113, mkC 116 111 114, mkC 117 112 115, mkC 118 113 116, mkC 119 114 117,
   mkC 120 115 118, mkC 121 116 119, mkC 122 117 120, mkC 123 118 121, mkC 124 119 122,
   mkC 125 120 123, mkC 126 121 124, mkC 127 122 125, mkC 128 123 126, mkC 129 124 127,
   mkC 130 114 128, mkC 131 126 129, mkC 132 127 130, mkC 133 128 131, mkC 134 129 132,
   mkC 135 130 133, mkC 136 131 134, mkC 137 132 135, mkC 138 133 136, mkC 139 134 137,
   mkC 140 135 138, mkC 141 136 139, mkC 142 137 140, mkC 143 138 141, mkC 144 139 142,
   mkC 145 140 143, mkC 146 141 144, mkC 147 142 145, mkC 148 143 146, mkC 149 144 147,
   mkC 150 145 148, mkC 151 146 149, mkC 152 147 150, mkC 153 148 151, mkC 154 149 152,
   mkC 155 150 153, mkC 156 141 154, mkC 157 152 155, mkC 158 153 156, mkC 159 154 157,
   mkC 160 155 158, mkC 161 156 159, mkC 141 139 140, mkC 140 138 139]

/-- A 16-bar zigzag uptrend that confirms UP without any flow vote. -/
def seriesB : List Candle :=
  [ mkC 11 9 10, mkC 13 11 12, mkC 15 13 14, mkC 17 15 16, mkC 19 17 18, mkC 21 14 20,
   mkC 23 21 22, mkC 25 23 24, mkC 26 24 25, mkC 26 24 25, mkC 26 20 25, mkC 26 24 25,
   mkC 26 24 25, mkC 26 24 25, mkC 26 24 25, mkC 26 24 25]

/-- A 20-bar rise-then-plateau: structure and EMA vote UP but MACD votes DOWN
at the last bar, so confirmation needs the flow vote. -/
def seriesC : List Candle :=
  [ mkC 11 9 10, mkC 13 11 12, mkC 15 13 14, mkC 17 15 16, mkC 19 17 18, mkC 21 14 20,
   mkC 23 21 22, mkC 25 23 24, mkC 26 24 25, mkC 26 24 25, mkC 26 20 25, mkC 26 24 25,
   mkC 26 24 25, mkC 26 24 25, mkC 26 24 25, mkC 26 24 25, mkC 26 24 25, mkC 26 24 25,
   mkC 26 24 25, mkC 26 24 25]

/-- A hand-filled frame: ascending swing highs at 2 and 6, EMA and MACD UP at
index 9 — a confirmed UP bar without any flow vote. -/
def frameX : Frame :=
  { highs := [0, 0, 5, 0, 0, 0, 6, 0, 0, 0]
    lows := List.replicate 10 0
    closes := List.replicate 10 0
    volumes := List.replicate 10 1
    emaFast := [0, 0, 0, 0, 0, 0, 0, 0, 0, 2]
    emaSlow := [0, 0, 0, 0, 0, 0, 0, 0, 0, 1]
    macd := [0, 0, 0, 0, 0, 0, 0, 0, 0, 1]
    macdSignal := List.replicate 10 0
    volSma := []
    vRat := []
    swingHigh := [false, false, true, false, false, false, true, false, false, false]
    swingLow := List.replicate 10 false }

/-- A hand-filled frame with two swing highs of equal value (a tie). -/
def frameY : Frame :=
  { highs := [0, 0, 5, 0, 0, 0, 5, 0, 0, 0]
    lows := List.replicate 10 0
    closes := List.replicate 10 0
    volumes := List.replicate 10 1
    emaFast := []
    emaSlow := []
    macd := []
    macdSignal := []
    volSma := []
    vRat := []
    swingHigh := [false, false, true, false, false, false, true, false, false, false]
    swingLow := List.replicate 10 false }

/-- The EMA raw direction is never NEUTRAL: the comparison yields UP or DOWN. -/
lemma ema_dir_ne_neutral (f : Frame) (idx : ℕ) : ema_dir f idx ≠ TrendDir.NEUTRAL := by
  unfold ema_dir; split <;> simp

/-- C1: the Confirmation Scorer returns a non-null confirmed direction iff the
structural direction is not NEUTRAL, equals the EMA raw direction, and at
least one of the MACD direction or a non-null flow direction also equals it
(vote count ≥ 3); and whenever confirmed_direction is non-null it equals both
the structural direction and the raw direction. -/
theorem C1_confirmation_votes (f : Frame) (idx : ℕ) (w : Option TrendDir) :
    ((trend_decision f idx w).confirmed ≠ none ↔
      ((get_structure f idx).dir ≠ TrendDir.NEUTRAL ∧
        (get_structure f idx).dir = ema_dir f idx ∧
        (macd_dir f idx = (get_structure f idx).dir ∨ w = some (get_structure f idx).dir))) ∧
    (∀ t, (trend_decision f idx w).confirmed = some t →
      t = (get_structure f idx).dir ∧ t = (trend_decision f idx w).raw) := by
  unfold trend_decision
  dsimp only
  constructor
  · split_ifs with h1 h2 h3 h4 <;> simp_all [ema_dir_ne_neutral]
  · intro t ht
    split_ifs at ht with h1 h2 <;> simp_all

/-- C1 witness: a concrete confirmed-UP bar, through the theorem. -/
theorem C1_witness :
    TrendDir.UP = (get_structure frameX 9).dir ∧
      TrendDir.UP = (trend_decision frameX 9 none).raw :=
  (C1_confirmation_votes frameX 9 none).2 TrendDir.UP (by decide)

/-- C2: structural_direction is UP iff HH or HL fires and no LH/LL overwrites
it, DOWN iff LH or LL fires (last-writer-wins), NEUTRAL iff both types are
null; and a tie between the two most recent like-kind swings classifies as LH
(resp. LL), never HH or HL. -/
theorem C2_structure_classification (f : Frame) (idx : ℕ) :
    ((get_structure f idx).dir = TrendDir.DOWN ↔
      (get_structure f idx).high = some SwingLabel.LH ∨
        (get_structure f idx).low = some SwingLabel.LL) ∧
    ((get_structure f idx).dir = TrendDir.UP ↔
      ((get_structure f idx).high = some SwingLabel.HH ∨
          (get_structure f idx).low = some SwingLabel.HL) ∧
        ¬((get_structure f idx).high = some SwingLabel.LH ∨
            (get_structure f idx).low = some SwingLabel.LL)) ∧
    ((get_structure f idx).dir = TrendDir.NEUTRAL ↔
      (get_structure f idx).high = none ∧ (get_structure f idx).low = none) ∧
    (∀ a b, lastTwo (swingHighIdxs f idx) = some (a, b) →
      f.highs.getD a 0 = f.highs.getD b 0 →
      (get_structure f idx).high = some SwingLabel.LH) ∧
    (∀ a b, lastTwo (swingLowIdxs f idx) = some (a, b) →
      f.lows.getD a 0 = f.lows.getD b 0 →
      (get_structure f idx).low = some SwingLabel.LL) := by
  unfold get_structure
  rcases hp : lastTwo (swingHighIdxs f idx) with _ | p <;>
    rcases lp : lastTwo (swingLowIdxs f idx) with _ | q <;>
      dsimp only <;> split_ifs <;> simp_all

/-- C2 witness: two equal swing highs classify as LH, through the theorem. -/
theorem C2_witness : (get_structure frameY 9).high = some SwingLabel.LH :=
  (C2_structure_classification frameY 9).2.2.2.1 6 2 (by decide) (by decide)

/-- C7: re-entry is true iff the confirmed direction is UP (resp. DOWN) and a
touch-or-cross of ema_fast at one of the two prior bars is followed by the
latest close back above (resp. below) it; and it is false for every input
whose confirmed direction is null. -/
theorem C7_reentry (d : AnalysisResult) :
    (is_reentry_signal d = true ↔
      ((d.nowD.confirmed = some TrendDir.UP ∧
         (d.df4.closes.getD (d.df4.closes.length - 3) 0 ≤
            d.df4.emaFast.getD (d.df4.emaFast.length - 3) 0 ∨
          d.df4.closes.getD (d.df4.closes.length - 2) 0 ≤
            d.df4.emaFast.getD (d.df4.emaFast.length - 2) 0) ∧
         d.df4.emaFast.getD (d.df4.emaFast.length - 1) 0 <
           d.df4.closes.getD (d.df4.closes.length - 1) 0) ∨
       (d.nowD.confirmed = some TrendDir.DOWN ∧
         (d.df4.emaFast.getD (d.df4.emaFast.length - 3) 0 ≤
            d.df4.closes.getD (d.df4.closes.length - 3) 0 ∨
          d.df4.emaFast.getD (d.df4.emaFast.length - 2) 0 ≤
            d.df4.closes.getD (d.df4.closes.length - 2) 0) ∧
         d.df4.closes.getD (d.df4.closes.length - 1) 0 <
           d.df4.emaFast.getD (d.df4.emaFast.length - 1) 0))) ∧
    (d.nowD.confirmed = none → is_reentry_signal d = false) := by
  unfold is_reentry_signal
  rcases h : d.nowD.confirmed with _ | c
  · simp
  · cases c <;> simp_all

/-- The empty dataframe, for hand-built analysis records. -/
def emptyFrame : Frame :=
  { highs := [], lows := [], closes := [], volumes := [], emaFast := [], emaSlow := []
    macd := [], macdSignal := [], volSma := [], vRat := [], swingHigh := [], swingLow := [] }

/-- A minimal analysis record carrying just the fields main's dispatch reads. -/
def mkRes (inst : String) (now prev : Option TrendDir) : AnalysisResult :=
  { inst := inst, df4 := emptyFrame, day := TrendDir.NEUTRAL
    nowD := { raw := TrendDir.UP, confirmed := now
              st := { dir := TrendDir.NEUTRAL, high := none, low := none
                      hiIdx := none, loIdx := none } }
    prevD := { raw := TrendDir.UP, confirmed := prev
               st := { dir := TrendDir.NEUTRAL, high := none, low := none
                       hiIdx := none, loIdx := none } }
    close := 0, swing := 0, hi := none, lo := none, net := 0, whaleDir := none }

/-- C7 witness: a null confirmed direction yields no re-entry, through the theorem. -/
theorem C7_witness : is_reentry_signal (mkRes "BTC-USDT" none none) = false :=
  (C7_reentry (mkRes "BTC-USDT" none none)).2 rfl

/-- Bool contains on a string list agrees with list membership. -/
lemma contains_iff (l : List String) (s : String) : l.contains s = true ↔ s ∈ l := by
  simp [List.contains_eq_any_beq, List.any_eq_true, eq_comm]

/-- The trend-change test of main, as a proposition. -/
lemma trend_fires_iff (b : Bool) (d : AnalysisResult) :
    trend_fires b d = true ↔
      (d.nowD.confirmed ≠ none ∧
        ¬(d.inst ∈ ALTCOINS ∧ b = true ∧ d.nowD.confirmed = some TrendDir.UP) ∧
        (d.prevD.confirmed = none ∨ d.prevD.confirmed ≠ d.nowD.confirmed)) := by
  unfold trend_fires
  cases b <;> simp [contains_iff] <;> tauto

/-- The re-entry test of main, as a proposition. -/
lemma reentry_fires_iff (b : Bool) (d : AnalysisResult) :
    reentry_fires b d = true ↔
      (d.nowD.confirmed ≠ none ∧
        ¬(d.inst ∈ ALTCOINS ∧ b = true ∧ d.nowD.confirmed = some TrendDir.UP) ∧
        is_reentry_signal d = true) := by
  unfold reentry_fires
  cases b <;> simp [contains_iff] <;> tauto

/-- Membership in one run's alert list: a TREND alert is a firing trend test,
a REENTRY alert additionally needs the trend scan to have fired nowhere. -/
lemma mem_alertsWith (b : Bool) (A : List AnalysisResult) (x : AnalysisResult × Tag) :
    x ∈ alertsWith b A ↔
      ((x.2 = Tag.TREND ∧ x.1 ∈ A ∧ trend_fires b x.1 = true) ∨
        (x.2 = Tag.REENTRY ∧ (A.filter (trend_fires b)).isEmpty = true ∧
          x.1 ∈ A ∧ reentry_fires b x.1 = true)) := by
  obtain ⟨d, t⟩ := x
  unfold alertsWith
  dsimp only
  split
  next hE =>
    have hnil : ∀ a ∈ A, ¬ trend_fires b a = true := by
      rw [List.isEmpty_iff] at hE
      intro a ha hf
      have hm : a ∈ A.filter (trend_fires b) := List.mem_filter.mpr ⟨ha, hf⟩
      rw [hE] at hm
      exact absurd hm (List.not_mem_nil a)
    cases t
    · simp only [List.mem_map]
      constructor
      · rintro ⟨a, -, heq⟩
        exact absurd heq (by simp)
      · rintro (⟨-, hA, hf⟩ | ⟨ht, -⟩)
        · exact absurd hf (hnil d hA)
        · exact absurd ht (by simp)
    · simp only [List.mem_map]
      constructor
      · rintro ⟨a, ha, heq⟩
        rw [Prod.mk.injEq] at heq
        obtain ⟨rfl, -⟩ := heq
        rcases List.mem_filter.mp ha with ⟨hA, hf⟩
        exact Or.inr ⟨trivial, hE, hA, hf⟩
      · rintro (⟨ht, -⟩ | ⟨-, -, hA, hf⟩)
        · exact absurd ht (by simp)
        · exact ⟨d, List.mem_filter.mpr ⟨hA, hf⟩, rfl⟩
  next hE =>
    cases t
    · simp only [List.mem_map]
      constructor
      · rintro ⟨a, ha, heq⟩
        rw [Prod.mk.injEq] at heq
        obtain ⟨rfl, -⟩ := heq
        rcases List.mem_filter.mp ha with ⟨hA, hf⟩
        exact Or.inl ⟨trivial, hA, hf⟩
      · rintro (⟨-, hA, hf⟩ | ⟨ht, -⟩)
        · exact ⟨d, List.mem_filter.mpr ⟨hA, hf⟩, rfl⟩
        · exact absurd ht (by simp)
    · simp only [List.mem_map]
      constructor
      · rintro ⟨a, -, heq⟩
        exact absurd heq (by simp)
      · rintro (⟨ht, -⟩ | ⟨-, hEmp, -, -⟩)
        · exact absurd ht (by simp)
        · exact absurd hEmp hE

/-- C5 (amended): a trend-change alert for an instrument is emitted iff the
latest confirmed direction is non-null, the previous one is null or differs,
and the instrument is not an altcoin UP suppressed by the regime gate. -/
theorem C5_trend_event (A : List AnalysisResult) (d : AnalysisResult) :
    (d, Tag.TREND) ∈ runAlerts A ↔
      (d ∈ A ∧ d.nowD.confirmed ≠ none ∧
        ¬(d.inst ∈ ALTCOINS ∧ block_alt_long A = true ∧ d.nowD.confirmed = some TrendDir.UP) ∧
        (d.prevD.confirmed = none ∨ d.prevD.confirmed ≠ d.nowD.confirmed)) := by
  rw [runAlerts, mem_alertsWith, trend_fires_iff]
  simp

/-- The run used against C5 as stated: BTC is confirmed DOWN with no change,
SOL freshly confirms UP. -/
def runC5 : List AnalysisResult :=
  [mkRes "BTC-USDT" (some TrendDir.DOWN) (some TrendDir.DOWN),
   mkRes "SOL-USDT" (some TrendDir.UP) none]

/-- C5 counterexample: SOL's latest confirmed direction is UP and its previous
one is null, yet no trend-change alert for SOL is emitted (the regime gate
suppresses it), refuting the unconditional iff. -/
theorem C5_counterexample :
    (mkRes "SOL-USDT" (some TrendDir.UP) none).nowD.confirmed ≠ none ∧
      (mkRes "SOL-USDT" (some TrendDir.UP) none).prevD.confirmed = none ∧
      mkRes "SOL-USDT" (some TrendDir.UP) none ∈ runC5 ∧
      ¬((mkRes "SOL-USDT" (some TrendDir.UP) none, Tag.TREND) ∈ runAlerts runC5) := by
  decide

/-- A one-instrument run with a fresh UP confirmation and no regime block. -/
def runC5w : List AnalysisResult := [mkRes "BNB-USDT" (some TrendDir.UP) none]

/-- C5 witness: an unsuppressed fresh confirmation emits a trend-change alert,
through the theorem. -/
theorem C5_witness :
    (mkRes "BNB-USDT" (some TrendDir.UP) none, Tag.TREND) ∈ runAlerts runC5w :=
  (C5_trend_event runC5w (mkRes "BNB-USDT" (some TrendDir.UP) none)).mpr (by decide)

/-- A gated trend test implies the ungated one. -/
lemma trend_fires_of_gated (b : Bool) (d : AnalysisResult)
    (h : trend_fires b d = true) : trend_fires false d = true := by
  rw [trend_fires_iff] at h ⊢
  simp only [Bool.false_eq_true, false_and, and_false, not_false_iff] at *
  tauto

/-- The ungated trend test implies the gated one for any alert the gate never
suppresses. -/
lemma trend_fires_of_ungated (b : Bool) (d : AnalysisResult)
    (h : trend_fires false d = true)
    (hs : ¬(d.inst ∈ ALTCOINS ∧ d.nowD.confirmed = some TrendDir.UP)) :
    trend_fires b d = true := by
  rw [trend_fires_iff] at h ⊢
  tauto

/-- The ungated re-entry test implies the gated one for unsuppressed alerts. -/
lemma reentry_fires_of_ungated (b : Bool) (d : AnalysisResult)
    (h : reentry_fires false d = true)
    (hs : ¬(d.inst ∈ ALTCOINS ∧ d.nowD.confirmed = some TrendDir.UP)) :
    reentry_fires b d = true := by
  rw [reentry_fires_iff] at h ⊢
  tauto

/-- If no ungated trend test fires, no gated one does. -/
lemma gated_filter_empty (b : Bool) (A : List AnalysisResult)
    (h : (A.filter (trend_fires false)).isEmpty = true) :
    (A.filter (trend_fires b)).isEmpty = true := by
  rw [List.isEmpty_iff, List.filter_eq_nil_iff] at h ⊢
  intro a ha hf
  exact h a ha (trend_fires_of_gated b a hf)

/-- C6: when some major is confirmed DOWN the run emits no UP alert for any
altcoin; every alert that is not an altcoin UP alert and would be emitted
with the gate off is still emitted (majors' alerts and altcoin DOWN alerts
are never suppressed); and with no major confirmed DOWN the run equals the
ungated run. -/
theorem C6_regime_gate :
    (∀ (A : List AnalysisResult) (x : AnalysisResult × Tag), block_alt_long A = true →
      x ∈ runAlerts A → x.1.inst ∈ ALTCOINS → x.1.nowD.confirmed ≠ some TrendDir.UP) ∧
    (∀ (A : List AnalysisResult) (x : AnalysisResult × Tag),
      ¬(x.1.inst ∈ ALTCOINS ∧ x.1.nowD.confirmed = some TrendDir.UP) →
      x ∈ alertsWith false A → x ∈ runAlerts A) ∧
    (∀ A : List AnalysisResult, block_alt_long A = false → runAlerts A = alertsWith false A) := by
  refine ⟨?_, ?_, ?_⟩
  · intro A x hb hx halt hup
    rw [runAlerts, mem_alertsWith] at hx
    rcases hx with ⟨-, -, hf⟩ | ⟨-, -, -, hf⟩
    · rcases (trend_fires_iff _ _).mp hf with ⟨-, hno, -⟩
      exact hno ⟨halt, hb, hup⟩
    · rcases (reentry_fires_iff _ _).mp hf with ⟨-, hno, -⟩
      exact hno ⟨halt, hb, hup⟩
  · intro A x hs hx
    rw [mem_alertsWith] at hx
    rw [runAlerts, mem_alertsWith]
    rcases hx with ⟨ht, hA, hf⟩ | ⟨ht, hE, hA, hf⟩
    · exact Or.inl ⟨ht, hA, trend_fires_of_ungated _ _ hf hs⟩
    · exact Or.inr ⟨ht, gated_filter_empty _ _ hE, hA, reentry_fires_of_ungated _ _ hf hs⟩
  · intro A hb
    unfold runAlerts
    rw [hb]

/-- The run used to witness C6: BTC confirmed DOWN, SOL freshly confirms DOWN. -/
def runC6 : List AnalysisResult :=
  [mkRes "BTC-USDT" (some TrendDir.DOWN) none, mkRes "SOL-USDT" (some TrendDir.DOWN) none]

/-- C6 witness: an altcoin alert emitted under an active gate is not an UP
alert, through the theorem. -/
theorem C6_witness :
    (mkRes "SOL-USDT" (some TrendDir.DOWN) none).nowD.confirmed ≠ some TrendDir.UP :=
  C6_regime_gate.1 runC6 (mkRes "SOL-USDT" (some TrendDir.DOWN) none, Tag.TREND)
    (by decide) (by decide) (by decide)

/-- The full pipeline keeps the candle count. -/
lemma pipeline_closes_length (c : List Candle) :
    (detect_swings (add_indicators (toFrame c))).closes.length = c.length := by
  simp [detect_swings, add_indicators, toFrame]

set_option maxRecDepth 10000 in
/-- C10: the previous bar's confirmation is always computed with a null flow
direction, whatever flow the run saw; and on a concrete series the latest
bar's confirmation does flip with the flow vote, so only the latest bar can
receive it. -/
theorem C10_prev_flow_absent :
    (∀ (c4 c1 : List Candle) (net : ℚ) (side : Option TrendDir) (inst : String),
      (analyze c4 c1 net side inst).prevD =
        trend_decision (detect_swings (add_indicators (toFrame c4))) (c4.length - 2) none) ∧
    ((analyze seriesC seriesC 100001 (some TrendDir.UP) "BTC-USDT").nowD.confirmed =
        some TrendDir.UP ∧
      (analyze seriesC seriesC 0 none "BTC-USDT").nowD.confirmed = none) := by
  constructor
  · intro c4 c1 net side inst
    unfold analyze
    dsimp only
    rw [pipeline_closes_length]
  · exact ⟨by decide, by decide⟩

/-- C3 counterexample: a daily fetch of exactly 30 well-formed bars is
rejected as insufficient data, and the instrument's analysis is skipped even
with a long 4H series, refuting the 30-bar daily minimum. -/
theorem C3_counterexample :
    get_candles (List.replicate 30 (some (mkC 1 1 1))) = none ∧
      analyzeOpt (List.replicate 64 (some (mkC 1 1 1))) (List.replicate 30 (some (mkC 1 1 1)))
        0 none "BTC-USDT" = none := by
  decide

/-- C3 (amended): both timeframes share one minimum: a fetch yields a series
iff it has at least 5 raw records of which at least 60 parse, and analysis is
skipped iff the 4H or the 1D fetch fails that bar. -/
theorem C3_sixty_bar_minimum :
    (∀ raw : List (Option Candle),
      (get_candles raw).isSome = true ↔
        (5 ≤ raw.length ∧ 60 ≤ (raw.reverse.filterMap id).length)) ∧
    (∀ (raw4 raw1 : List (Option Candle)) (net : ℚ) (side : Option TrendDir) (inst : String),
      analyzeOpt raw4 raw1 net side inst = none ↔
        (get_candles raw4 = none ∨ get_candles raw1 = none)) := by
  constructor
  · intro raw
    unfold get_candles
    split_ifs with h1 h2 <;> simp_all <;> omega
  · intro raw4 raw1 net side inst
    unfold analyzeOpt
    cases h4 : get_candles raw4 <;> cases h1 : get_candles raw1 <;> simp

/-- C3 witness: a 64-bar daily fetch succeeds, through the theorem. -/
theorem C3_witness : (get_candles (List.replicate 64 (some (mkC 1 1 1)))).isSome = true :=
  (C3_sixty_bar_minimum.1 (List.replicate 64 (some (mkC 1 1 1)))).mpr (by decide)

/-- The analysis record used against C8: confirmed direction null. -/
def resC8 : AnalysisResult :=
  { mkRes "BTC-USDT" none none with close := 100, swing := 10 }

/-- C8: calc_levels invoked with a null direction does not fail: it falls
into the DOWN branch and silently returns short-side levels — here a stop of
close·1.03 = 103 and targets 95, 90, 85 below the close. -/
theorem C8_null_direction :
    (∀ d : AnalysisResult, calc_levels d none = calc_levels d (some TrendDir.DOWN)) ∧
      calc_levels resC8 none = (103, 95, 90, 85) := by
  constructor
  · intro d
    rfl
  · decide

/-- Ten bars whose index 8 carries a high of 7: that future bar stops index 6
from being a swing high, so only index 2 is one. -/
def seriesD1 : List Candle :=
  [mkC 1 0 0, mkC 2 0 0, mkC 5 0 0, mkC 2 0 0, mkC 1 0 0,
   mkC 2 0 0, mkC 6 0 0, mkC 2 0 0, mkC 7 0 0, mkC 1 0 0]

/-- The same ten bars except index 8's high is 3: now index 6 is a swing high
too, and the structure at index 7 becomes HH/UP. -/
def seriesD2 : List Candle :=
  [mkC 1 0 0, mkC 2 0 0, mkC 5 0 0, mkC 2 0 0, mkC 1 0 0,
   mkC 2 0 0, mkC 6 0 0, mkC 2 0 0, mkC 3 0 0, mkC 1 0 0]

/-- C4 counterexample: two same-length series that agree on every candle at
index ≤ 7 (they differ only at index 8) give different Structures at idx = 7,
refuting strict causality: swing detection looks ahead `look` bars. -/
theorem C4_counterexample :
    seriesD1.length = seriesD2.length ∧ seriesD1.take 8 = seriesD2.take 8 ∧
      structureAt seriesD1 7 ≠ structureAt seriesD2 7 := by
  decide

/-- Two lists equal on their first m entries agree at getD for any index < m. -/
lemma getD_take_eq {α : Type} (l1 l2 : List α) (d : α) (m i : ℕ)
    (h : l1.take m = l2.take m) (hi : i < m) : l1.getD i d = l2.getD i d := by
  have h1 : l1[i]? = (l1.take m)[i]? := by rw [List.getElem?_take, if_pos hi]
  have h2 : l2[i]? = (l2.take m)[i]? := by rw [List.getElem?_take, if_pos hi]
  rw [List.getD_eq_getElem?_getD, List.getD_eq_getElem?_getD, h1, h2, h]

/-- getD over a tabulated list evaluates the function below the bound. -/
lemma getD_range_map {β : Type} (g : ℕ → β) (n i : ℕ) (d : β) :
    ((List.range n).map g).getD i d = if i < n then g i else d := by
  split
  next h =>
    rw [List.getD_eq_getElem?_getD, List.getElem?_map, List.getElem?_range h]
    rfl
  next h =>
    rw [List.getD_eq_getElem?_getD, List.getElem?_eq_none]
    · rfl
    · simpa using h

/-- Out of bounds, the swing-high test is false. -/
lemma isSwingHigh_oob (l : List ℚ) (look i : ℕ) (h : l.length ≤ i) :
    isSwingHigh l look i = false := by
  unfold isSwingHigh
  have hb : ¬(i + look < l.length) := by omega
  simp [hb]

/-- Out of bounds, the swing-low test is false. -/
lemma isSwingLow_oob (l : List ℚ) (look i : ℕ) (h : l.length ≤ i) :
    isSwingLow l look i = false := by
  unfold isSwingLow
  have hb : ¬(i + look < l.length) := by omega
  simp [hb]

/-- The pipeline's swing_high flag at i is the swing-high test on the highs. -/
lemma pipeline_swingHigh_getD (c : List Candle) (i : ℕ) :
    (detect_swings (add_indicators (toFrame c))).swingHigh.getD i false =
      isSwingHigh (c.map (fun x => x.high)) 2 i := by
  have hh : (add_indicators (toFrame c)).highs = c.map (fun x => x.high) := rfl
  show ((List.range (add_indicators (toFrame c)).highs.length).map
      (fun j => isSwingHigh (add_indicators (toFrame c)).highs 2 j)).getD i false = _
  rw [getD_range_map, hh]
  split
  · rfl
  next h => rw [isSwingHigh_oob]; omega

/-- The pipeline's swing_low flag at i is the swing-low test on the lows. -/
lemma pipeline_swingLow_getD (c : List Candle) (i : ℕ) :
    (detect_swings (add_indicators (toFrame c))).swingLow.getD i false =
      isSwingLow (c.map (fun x => x.low)) 2 i := by
  have hh : (add_indicators (toFrame c)).lows = c.map (fun x => x.low) := rfl
  show ((List.range (add_indicators (toFrame c)).lows.length).map
      (fun j => isSwingLow (add_indicators (toFrame c)).lows 2 j)).getD i false = _
  rw [getD_range_map, hh]
  split
  · rfl
  next h => rw [isSwingLow_oob]; omega

/-- The swing-high test at i reads only entries at index ≤ i + 2. -/
lemma isSwingHigh_congr (l1 l2 : List ℚ) (m i : ℕ) (hlen : l1.length = l2.length)
    (h : l1.take m = l2.take m) (hi : i + 2 < m) :
    isSwingHigh l1 2 i = isSwingHigh l2 2 i := by
  have h0 : ∀ j, j < m → l1.getD j 0 = l2.getD j 0 := fun j hj => getD_take_eq l1 l2 0 m j h hj
  unfold isSwingHigh
  rw [hlen, show List.range 2 = [0, 1] from rfl]
  simp only [List.all_cons, List.all_nil, Bool.and_true]
  rw [h0 i (by omega), h0 (i - (0 + 1)) (by omega), h0 (i + (0 + 1)) (by omega),
    h0 (i - (1 + 1)) (by omega), h0 (i + (1 + 1)) (by omega)]

/-- The swing-low test at i reads only entries at index ≤ i + 2. -/
lemma isSwingLow_congr (l1 l2 : List ℚ) (m i : ℕ) (hlen : l1.length = l2.length)
    (h : l1.take m = l2.take m) (hi : i + 2 < m) :
    isSwingLow l1 2 i = isSwingLow l2 2 i := by
  have h0 : ∀ j, j < m → l1.getD j 0 = l2.getD j 0 := fun j hj => getD_take_eq l1 l2 0 m j h hj
  unfold isSwingLow
  rw [hlen, show List.range 2 = [0, 1] from rfl]
  simp only [List.all_cons, List.all_nil, Bool.and_true]
  rw [h0 i (by omega), h0 (i - (0 + 1)) (by omega), h0 (i + (0 + 1)) (by omega),
    h0 (i - (1 + 1)) (by omega), h0 (i + (1 + 1)) (by omega)]

/-- The two indices lastTwo returns are members of the list. -/
lemma lastTwo_mem (l : List ℕ) (p : ℕ × ℕ) (h : lastTwo l = some p) :
    p.1 ∈ l ∧ p.2 ∈ l := by
  unfold lastTwo at h
  rcases hl : l.reverse with _ | ⟨a, t⟩
  · rw [hl] at h; cases h
  · rcases t with _ | ⟨b, t2⟩
    · rw [hl] at h; cases h
    · rw [hl] at h
      cases h
      constructor
      · rw [← List.mem_reverse, hl]; exact List.mem_cons_self a _
      · rw [← List.mem_reverse, hl]; exact List.mem_cons_of_mem a (List.mem_cons_self b t2)

/-- The swing-high index list at idx depends only on candles at index ≤ idx + 2. -/
lemma swingHighIdxs_congr (c1 c2 : List Candle) (idx : ℕ)
    (hlen : c1.length = c2.length) (htake : c1.take (idx + 3) = c2.take (idx + 3)) :
    swingHighIdxs (detect_swings (add_indicators (toFrame c1))) idx =
      swingHighIdxs (detect_swings (add_indicators (toFrame c2))) idx := by
  unfold swingHighIdxs
  apply List.filter_congr
  intro i hi
  rw [pipeline_swingHigh_getD, pipeline_swingHigh_getD]
  apply isSwingHigh_congr _ _ (idx + 3)
  · simp [hlen]
  · rw [← List.map_take, ← List.map_take, htake]
  · have hx : i < idx + 1 := List.mem_range.mp hi
    omega

/-- The swing-low index list at idx depends only on candles at index ≤ idx + 2. -/
lemma swingLowIdxs_congr (c1 c2 : List Candle) (idx : ℕ)
    (hlen : c1.length = c2.length) (htake : c1.take (idx + 3) = c2.take (idx + 3)) :
    swingLowIdxs (detect_swings (add_indicators (toFrame c1))) idx =
      swingLowIdxs (detect_swings (add_indicators (toFrame c2))) idx := by
  unfold swingLowIdxs
  apply List.filter_congr
  intro i hi
  rw [pipeline_swingLow_getD, pipeline_swingLow_getD]
  apply isSwingLow_congr _ _ (idx + 3)
  · simp [hlen]
  · rw [← List.map_take, ← List.map_take, htake]
  · have hx : i < idx + 1 := List.mem_range.mp hi
    omega

/-- Members of the swing-high index list are at most idx. -/
lemma swingHighIdxs_lt (f : Frame) (idx a : ℕ) (h : a ∈ swingHighIdxs f idx) :
    a < idx + 1 :=
  List.mem_range.mp (List.mem_of_mem_filter h)

/-- Members of the swing-low index list are at most idx. -/
lemma swingLowIdxs_lt (f : Frame) (idx a : ℕ) (h : a ∈ swingLowIdxs f idx) :
    a < idx + 1 :=
  List.mem_range.mp (List.mem_of_mem_filter h)

/-- C4 (amended): the Structure at idx depends only on candles at index
≤ idx + look (look = 2): two same-length series that agree up to index
idx + 2 give the same Structure at idx. Changing a candle within the look
window above idx CAN change it, per the counterexample. -/
theorem C4_structure_causality (c1 c2 : List Candle) (idx : ℕ)
    (hlen : c1.length = c2.length) (htake : c1.take (idx + 3) = c2.take (idx + 3)) :
    structureAt c1 idx = structureAt c2 idx := by
  have hH := swingHighIdxs_congr c1 c2 idx hlen htake
  have hL := swingLowIdxs_congr c1 c2 idx hlen htake
  have hvh : ∀ a, a < idx + 3 →
      (detect_swings (add_indicators (toFrame c1))).highs.getD a 0 =
        (detect_swings (add_indicators (toFrame c2))).highs.getD a 0 := by
    intro a ha
    have e1 : (detect_swings (add_indicators (toFrame c1))).highs =
        c1.map (fun x => x.high) := rfl
    have e2 : (detect_swings (add_indicators (toFrame c2))).highs =
        c2.map (fun x => x.high) := rfl
    rw [e1, e2]
    exact getD_take_eq _ _ 0 (idx + 3) a (by rw [← List.map_take, ← List.map_take, htake]) ha
  have hvl : ∀ a, a < idx + 3 →
      (detect_swings (add_indicators (toFrame c1))).lows.getD a 0 =
        (detect_swings (add_indicators (toFrame c2))).lows.getD a 0 := by
    intro a ha
    have e1 : (detect_swings (add_indicators (toFrame c1))).lows =
        c1.map (fun x => x.low) := rfl
    have e2 : (detect_swings (add_indicators (toFrame c2))).lows =
        c2.map (fun x => x.low) := rfl
    rw [e1, e2]
    exact getD_take_eq _ _ 0 (idx + 3) a (by rw [← List.map_take, ← List.map_take, htake]) ha
  unfold structureAt get_structure
  dsimp only
  rw [hH, hL]
  have hht :
      (lastTwo (swingHighIdxs (detect_swings (add_indicators (toFrame c2))) idx)).map
          (fun p => if (detect_swings (add_indicators (toFrame c1))).highs.getD p.2 0 <
              (detect_swings (add_indicators (toFrame c1))).highs.getD p.1 0
            then SwingLabel.HH else SwingLabel.LH) =
        (lastTwo (swingHighIdxs (detect_swings (add_indicators (toFrame c2))) idx)).map
          (fun p => if (detect_swings (add_indicators (toFrame c2))).highs.getD p.2 0 <
              (detect_swings (add_indicators (toFrame c2))).highs.getD p.1 0
            then SwingLabel.HH else SwingLabel.LH) := by
    rcases hp : lastTwo (swingHighIdxs (detect_swings (add_indicators (toFrame c2))) idx)
      with _ | p
    · rfl
    · obtain ⟨h1, h2⟩ := lastTwo_mem _ _ hp
      have m1 := swingHighIdxs_lt _ _ _ h1
      have m2 := swingHighIdxs_lt _ _ _ h2
      simp only [Option.map_some']
      rw [hvh p.1 (by omega), hvh p.2 (by omega)]
  have hlt :
      (lastTwo (swingLowIdxs (detect_swings (add_indicators (toFrame c2))) idx)).map
          (fun p => if (detect_swings (add_indicators (toFrame c1))).lows.getD p.2 0 <
              (detect_swings (add_indicators (toFrame c1))).lows.getD p.1 0
            then SwingLabel.HL else SwingLabel.LL) =
        (lastTwo (swingLowIdxs (detect_swings (add_indicators (toFrame c2))) idx)).map
          (fun p => if (detect_swings (add_indicators (toFrame c2))).lows.getD p.2 0 <
              (detect_swings (add_indicators (toFrame c2))).lows.getD p.1 0
            then SwingLabel.HL else SwingLabel.LL) := by
    rcases hp : lastTwo (swingLowIdxs (detect_swings (add_indicators (toFrame c2))) idx)
      with _ | p
    · rfl
    · obtain ⟨h1, h2⟩ := lastTwo_mem _ _ hp
      have m1 := swingLowIdxs_lt _ _ _ h1
      have m2 := swingLowIdxs_lt _ _ _ h2
      simp only [Option.map_some']
      rw [hvl p.1 (by omega), hvl p.2 (by omega)]
  rw [hht, hlt]

/-- C4 witness: two series differing only at index 8 share the Structure at
idx = 5, through the theorem. -/
theorem C4_witness : structureAt seriesD1 5 = structureAt seriesD2 5 :=
  C4_structure_causality seriesD1 seriesD2 5 (by decide) (by decide)

/-- The seed is below a left max-fold. -/
lemma foldl_max_init (xs : List ℚ) (a : ℚ) : a ≤ xs.foldl max a := by
  induction xs generalizing a with
  | nil => exact le_refl a
  | cons x t ih => exact le_trans (le_max_left a x) (ih (max a x))

/-- Every member is below a left max-fold. -/
lemma foldl_max_mem (xs : List ℚ) (a x : ℚ) (h : x ∈ xs) : x ≤ xs.foldl max a := by
  induction xs generalizing a with
  | nil => cases h
  | cons y t ih =>
    rcases List.mem_cons.mp h with rfl | hm
    · exact le_trans (le_max_right a x) (foldl_max_init t (max a x))
    · exact ih (max a y) hm

/-- Every member is at most the list maximum. -/
lemma le_listMax (l : List ℚ) (x : ℚ) (h : x ∈ l) : x ≤ listMax l := by
  cases l with
  | nil => cases h
  | cons y t =>
    rcases List.mem_cons.mp h with rfl | hm
    · exact foldl_max_init t x
    · exact foldl_max_mem t y x hm

/-- A left min-fold is below its seed. -/
lemma foldl_min_init (xs : List ℚ) (a : ℚ) : xs.foldl min a ≤ a := by
  induction xs generalizing a with
  | nil => exact le_refl a
  | cons x t ih => exact le_trans (ih (min a x)) (min_le_left a x)

/-- A left min-fold is below every member. -/
lemma foldl_min_mem (xs : List ℚ) (a x : ℚ) (h : x ∈ xs) : xs.foldl min a ≤ x := by
  induction xs generalizing a with
  | nil => cases h
  | cons y t ih =>
    rcases List.mem_cons.mp h with rfl | hm
    · exact le_trans (foldl_min_init t (min a x)) (min_le_right a x)
    · exact ih (min a y) hm

/-- The list minimum is at most every member. -/
lemma listMin_le (l : List ℚ) (x : ℚ) (h : x ∈ l) : listMin l ≤ x := by
  cases l with
  | nil => cases h
  | cons y t =>
    rcases List.mem_cons.mp h with rfl | hm
    · exact foldl_min_init t x
    · exact foldl_min_mem t y x hm

/-- The candle tail commutes with column extraction. -/
lemma tail20_map (c : List Candle) (f : Candle → ℚ) :
    tail20 (c.map f) = (c.drop (c.length - 20)).map f := by
  unfold tail20
  rw [List.length_map, List.map_drop]

/-- On well-formed candles the 20-bar fallback range is nonnegative. -/
lemma tail_range_nonneg (c : List Candle) (hc : ∀ x ∈ c, x.low ≤ x.high) (hne : c ≠ []) :
    listMin (tail20 (c.map (fun x => x.low))) ≤ listMax (tail20 (c.map (fun x => x.high))) := by
  rcases hd : c.drop (c.length - 20) with _ | ⟨x, t⟩
  · exfalso
    have hl := congrArg List.length hd
    rw [List.length_drop] at hl
    have : c.length ≠ 0 := fun h0 => hne (List.length_eq_zero.mp h0)
    simp at hl
    omega
  · have hx : x ∈ c.drop (c.length - 20) := by rw [hd]; exact List.mem_cons_self x t
    have hxc : x ∈ c := List.mem_of_mem_drop hx
    have h1 : listMin (tail20 (c.map (fun y => y.low))) ≤ x.low := by
      rw [tail20_map]
      exact listMin_le _ _ (List.mem_map_of_mem _ hx)
    have h2 : x.high ≤ listMax (tail20 (c.map (fun y => y.high))) := by
      rw [tail20_map]
      exact le_listMax _ _ (List.mem_map_of_mem _ hx)
    exact le_trans h1 (le_trans (hc x hxc) h2)

/-- The swing range analyze stores is nonnegative on well-formed candles. -/
lemma analyze_swing_nonneg (c4 c1 : List Candle) (net : ℚ) (side : Option TrendDir)
    (inst : String) (hc : ∀ x ∈ c4, x.low ≤ x.high) (hne : c4 ≠ []) :
    0 ≤ (analyze c4 c1 net side inst).swing := by
  unfold analyze
  dsimp only
  rcases (trend_decision (detect_swings (add_indicators (toFrame c4)))
      ((detect_swings (add_indicators (toFrame c4))).closes.length - 1)
      (whale_gate net side)).st.hiIdx with _ | hi <;>
    rcases (trend_decision (detect_swings (add_indicators (toFrame c4)))
        ((detect_swings (add_indicators (toFrame c4))).closes.length - 1)
        (whale_gate net side)).st.loIdx with _ | lo <;>
      simp only [abs_nonneg, sub_nonneg]
  · exact tail_range_nonneg c4 hc hne
  · exact tail_range_nonneg c4 hc hne
  · exact tail_range_nonneg c4 hc hne

/-- C9 (amended): for an analysis result of well-formed candles, the UP-branch
targets are close plus half/one/one-and-a-half times the nonnegative swing
range, hence at or above the close; the stop equals the latest swing low's
low when one exists — with no guarantee it is below the close — and
close·0.97 only otherwise. For DOWN the levels are mirrored. -/
theorem C9_level_sides (c4 c1 : List Candle) (net : ℚ) (side : Option TrendDir)
    (inst : String) (d : AnalysisResult) (hd : d = analyze c4 c1 net side inst)
    (hc : ∀ x ∈ c4, x.low ≤ x.high) (hne : c4 ≠ []) :
    (d.nowD.confirmed = some TrendDir.UP →
      d.close ≤ (calc_levels d (some TrendDir.UP)).2.1 ∧
        d.close ≤ (calc_levels d (some TrendDir.UP)).2.2.1 ∧
        d.close ≤ (calc_levels d (some TrendDir.UP)).2.2.2 ∧
        (calc_levels d (some TrendDir.UP)).1 =
          (match d.lo with
           | some lo => d.df4.lows.getD lo 0
           | none => d.close * (97 / 100))) ∧
    (d.nowD.confirmed = some TrendDir.DOWN →
      (calc_levels d (some TrendDir.DOWN)).2.1 ≤ d.close ∧
        (calc_levels d (some TrendDir.DOWN)).2.2.1 ≤ d.close ∧
        (calc_levels d (some TrendDir.DOWN)).2.2.2 ≤ d.close ∧
        (calc_levels d (some TrendDir.DOWN)).1 =
          (match d.hi with
           | some hi => d.df4.highs.getD hi 0
           | none => d.close * (103 / 100))) := by
  have hs : 0 ≤ d.swing := hd ▸ analyze_swing_nonneg c4 c1 net side inst hc hne
  constructor
  · intro hup
    unfold calc_levels
    rw [if_pos rfl]
    refine ⟨by dsimp only; linarith, by dsimp only; linarith, by dsimp only; linarith, rfl⟩
  · intro hdown
    unfold calc_levels
    rw [if_neg (by simp)]
    refine ⟨by dsimp only; linarith, by dsimp only; linarith, by dsimp only; linarith, rfl⟩

/-- The analysis of the 64-bar series with a large buy flow. -/
def resA : AnalysisResult := analyze seriesA seriesA 100001 (some TrendDir.UP) "BTC-USDT"

set_option maxRecDepth 10000 in
/-- C9 counterexample: a reachable confirmed-UP analysis whose stop-loss (the
latest swing low's low, 141) lies strictly ABOVE the current close (139),
refuting "a stop-loss strictly below the current close". -/
theorem C9_counterexample :
    resA.nowD.confirmed = some TrendDir.UP ∧
      resA.close < (calc_levels resA (some TrendDir.UP)).1 := by
  decide

/-- The analysis of the 16-bar zigzag uptrend with no flow. -/
def resB : AnalysisResult := analyze seriesB seriesB 0 none "BTC-USDT"

set_option maxRecDepth 10000 in
/-- C9 witness: the amended level bounds at a concrete confirmed-UP analysis,
through the theorem. -/
theorem C9_witness :
    resB.close ≤ (calc_levels resB (some TrendDir.UP)).2.1 ∧
      resB.close ≤ (calc_levels resB (some TrendDir.UP)).2.2.1 ∧
      resB.close ≤ (calc_levels resB (some TrendDir.UP)).2.2.2 ∧
      (calc_levels resB (some TrendDir.UP)).1 =
        (match resB.lo with
         | some lo => resB.df4.lows.getD lo 0
         | none => resB.close * (97 / 100)) :=
  (C9_level_sides seriesB seriesB 0 none "BTC-USDT" resB rfl (by decide) (by decide)).1
    (by decide)

end TrendBot
